import Mathlib

/-!
Shallow embedding of the PR review-tracking bot.

The embedding follows the authoritative multi-channel, local-cache variant of
the source: the reaction client in src/slack.ts (addSlackReaction and
removeSlackReaction fanning out over all tracked message locations), the policy
check isPrReadyToMerge and the per-key lock table withPrLock in src/utils.ts,
the PrSlackMessage record of src/types.ts, and the webhook handlers
handlePrEvent, handlePrReviewComment and handlePrReviewEvent.

Remote Slack calls are modelled by an outcome oracle: for each location the
remote API either succeeds or fails with a string error code, exactly the
information the source inspects (error.data.error). Handlers are modelled as
pure functions that thread the tracked record and log, in order, the
reaction-client operations they invoke, the real remote calls issued, the
cache writes and the cache deletions.
-/

namespace PrBot

/-- One (channel, message-timestamp) pair, an element of prInfo.slackMessages. -/
structure SlackLoc where
  channel : String
  ts : String
deriving DecidableEq

/-- The PR tracking record, PrSlackMessage in src/types.ts. The three JS Sets
of strings are modelled as Finsets. -/
structure PrSlackMessage where
  slackMessages : List SlackLoc
  repoFullName : String
  approvals : Finset String
  changesRequested : Finset String
  botReactions : Finset String
deriving DecidableEq

/-! Emoji constants from config.ts. -/

def MERGED : String := "merged"

def APPROVED : String := "white_check_mark"

def CLOSED : String := "x"

def COMMENTED : String := "speech_balloon"

def READY_TO_MERGE : String := "rocket"

def PARTIAL_APPROVAL : String := "one"

def NEEDS_REVIEW : String := "warning"

/-- Outcome of one remote Slack API call at one location: success, or an error
carrying the error code string found in error.data.error. -/
inductive SlackCallResult where
  | ok
  | error (code : String)
deriving DecidableEq

/-- Whether one location counts as succeeded inside addSlackReaction: a real
success, or the idempotent-conflict code already_reacted (src/slack.ts line 127). -/
def addLocSuccess : SlackCallResult → Bool
  | .ok => true
  | .error code => code == "already_reacted"

/-- Whether one location counts as succeeded inside removeSlackReaction: a real
success, or the idempotent-conflict code not_reacted (src/slack.ts line 173). -/
def removeLocSuccess : SlackCallResult → Bool
  | .ok => true
  | .error code => code == "not_reacted"

/-- Result of one reaction-client operation: the (possibly updated) record, the
messageCache.set calls it performed, and the remote API calls it issued. -/
structure SlackOpResult where
  info : PrSlackMessage
  cacheWrites : List (String × PrSlackMessage)
  apiCalls : List SlackLoc
deriving DecidableEq

/-- addSlackReaction of src/slack.ts, lines 112 to 149: early-return when the
mirror already holds the emoji; otherwise fan out over all locations (env gives
each location its remote outcome) and update the mirror plus the cache only if
every location succeeded, counting already_reacted as success. -/
def addSlackReaction (env : SlackLoc → SlackCallResult) (prInfo : PrSlackMessage)
    (reactionEmoji : String) (prMsgKey : String) : SlackOpResult :=
  if reactionEmoji ∈ prInfo.botReactions then
    ⟨prInfo, [], []⟩
  else
    let allSucceeded := prInfo.slackMessages.all fun l => addLocSuccess (env l)
    if allSucceeded then
      let updated := { prInfo with botReactions := insert reactionEmoji prInfo.botReactions }
      ⟨updated, [(prMsgKey, updated)], prInfo.slackMessages⟩
    else
      ⟨prInfo, [], prInfo.slackMessages⟩

/-- removeSlackReaction of src/slack.ts, lines 158 to 195: early-return when the
mirror does not hold the emoji; otherwise fan out over all locations and update
the mirror plus the cache only if every location succeeded, counting
not_reacted as success. -/
def removeSlackReaction (env : SlackLoc → SlackCallResult) (prInfo : PrSlackMessage)
    (reactionEmoji : String) (prMsgKey : String) : SlackOpResult :=
  if reactionEmoji ∉ prInfo.botReactions then
    ⟨prInfo, [], []⟩
  else
    let allSucceeded := prInfo.slackMessages.all fun l => removeLocSuccess (env l)
    if allSucceeded then
      let updated := { prInfo with botReactions := prInfo.botReactions.erase reactionEmoji }
      ⟨updated, [(prMsgKey, updated)], prInfo.slackMessages⟩
    else
      ⟨prInfo, [], prInfo.slackMessages⟩

/-- isPrReadyToMerge of src/utils.ts, lines 36 to 44. The configured strict set
TWO_APPROVAL_REPOS is passed as the parameter strict since it is read from the
environment at startup. -/
def isPrReadyToMerge (strict : Finset String) (repoFullName : String)
    (approvals changesRequested : Finset String) : Bool :=
  if changesRequested.card > 0 then
    false
  else
    let requiredApprovals := if repoFullName ∈ strict then 2 else 1
    decide (approvals.card ≥ requiredApprovals)

/-- The pure mutation of the approvals and changes-requested sets performed by
handlePrReviewEvent for one review: an approved review deletes the reviewer from
changesRequested and adds them to approvals; a changes_requested review deletes
the reviewer from approvals and adds them to changesRequested; any other review
state leaves both sets unchanged. -/
def applyReviewSets (reviewState reviewer : String)
    (s : Finset String × Finset String) : Finset String × Finset String :=
  if reviewState = "approved" then
    (insert reviewer s.1, s.2.erase reviewer)
  else if reviewState = "changes_requested" then
    (s.1.erase reviewer, insert reviewer s.2)
  else
    s

/-- Folding a sequence of (reviewState, reviewer) review events over the
approvals and changes-requested sets. -/
def applySeqSets (es : List (String × String))
    (s : Finset String × Finset String) : Finset String × Finset String :=
  es.foldl (fun t e => applyReviewSets e.1 e.2 t) s

/-- One event applied to a tracked record while it stays tracked: a review, or
a synchronize (which clears both sets, handlePrEvent synchronize branch). -/
inductive TrackedEvent where
  | review (reviewState reviewer : String)
  | synchronize
deriving DecidableEq

/-- Effect of one tracked event on the approvals and changes-requested sets. -/
def applyTrackedEvent : TrackedEvent → Finset String × Finset String → Finset String × Finset String
  | .review st r, s => applyReviewSets st r s
  | .synchronize, _ => (∅, ∅)

/-- A reaction-client operation invoked by a handler. -/
inductive ReactionOp where
  | add (emoji : String)
  | remove (emoji : String)
deriving DecidableEq

/-- Remote outcome oracle for a whole handler run: the first argument is true
for reactions.add calls and false for reactions.remove calls, then the emoji
and the location. -/
abbrev Env := Bool → String → SlackLoc → SlackCallResult

/-- Threaded state while a handler runs: the current record plus the logs of
invoked reaction-client operations, issued remote calls, and cache writes. -/
structure HandlerSt where
  info : PrSlackMessage
  ops : List ReactionOp
  apiCalls : List (String × SlackLoc)
  cacheSets : List (String × PrSlackMessage)
deriving DecidableEq

/-- Invoke addSlackReaction on the threaded state. -/
def doAdd (env : Env) (key emoji : String) (st : HandlerSt) : HandlerSt :=
  let r := addSlackReaction (env true emoji) st.info emoji key
  ⟨r.info, st.ops ++ [ReactionOp.add emoji],
    st.apiCalls ++ r.apiCalls.map (fun l => (emoji, l)),
    st.cacheSets ++ r.cacheWrites⟩

/-- Invoke removeSlackReaction on the threaded state. -/
def doRemove (env : Env) (key emoji : String) (st : HandlerSt) : HandlerSt :=
  let r := removeSlackReaction (env false emoji) st.info emoji key
  ⟨r.info, st.ops ++ [ReactionOp.remove emoji],
    st.apiCalls ++ r.apiCalls.map (fun l => (emoji, l)),
    st.cacheSets ++ r.cacheWrites⟩

/-- Everything a handler run produced: the final record if one remains, and the
logs; cacheDels records messageCache.delete calls. -/
structure TrackedOutcome where
  info : PrSlackMessage
  ops : List ReactionOp
  apiCalls : List (String × SlackLoc)
  cacheSets : List (String × PrSlackMessage)
  cacheDels : List String
deriving DecidableEq

/-- handlePrReviewEvent of webhookHandlers, lines 159 to 216, on a tracked
record. The record mutation is applyReviewSets; the approved branch then adds
the approved reaction, removes commented and needs-review, evaluates merge
readiness on the mutated sets, and either swaps partial-approval for
ready-to-merge or adds partial-approval; the changes-requested branch adds
needs-review and removes ready-to-merge and approved; any other review state
does nothing; every branch ends with messageCache.set of the current record. -/
def handlePrReviewEventTracked (env : Env) (strict : Finset String)
    (reviewState reviewerGithub prMsgKey : String) (prInfo : PrSlackMessage) : TrackedOutcome :=
  let s := applyReviewSets reviewState reviewerGithub (prInfo.approvals, prInfo.changesRequested)
  let info0 := { prInfo with approvals := s.1, changesRequested := s.2 }
  if reviewState = "approved" then
    let st3 := doRemove env prMsgKey NEEDS_REVIEW
      (doRemove env prMsgKey COMMENTED
        (doAdd env prMsgKey APPROVED ⟨info0, [], [], []⟩))
    let isReadyToMerge :=
      isPrReadyToMerge strict st3.info.repoFullName st3.info.approvals st3.info.changesRequested
    let st4 :=
      if isReadyToMerge then
        doAdd env prMsgKey READY_TO_MERGE (doRemove env prMsgKey PARTIAL_APPROVAL st3)
      else if st3.info.approvals.card > 0 then
        doAdd env prMsgKey PARTIAL_APPROVAL st3
      else
        st3
    ⟨st4.info, st4.ops, st4.apiCalls, st4.cacheSets ++ [(prMsgKey, st4.info)], []⟩
  else if reviewState = "changes_requested" then
    let st3 := doRemove env prMsgKey APPROVED
      (doRemove env prMsgKey READY_TO_MERGE
        (doAdd env prMsgKey NEEDS_REVIEW ⟨info0, [], [], []⟩))
    ⟨st3.info, st3.ops, st3.apiCalls, st3.cacheSets ++ [(prMsgKey, st3.info)], []⟩
  else
    ⟨info0, [], [], [(prMsgKey, info0)], []⟩

/-- handlePrReviewComment of webhookHandlers, lines 138 to 157, on a tracked
record: add the commented reaction; the record is not re-stored by the handler
itself (only addSlackReaction may write the cache). -/
def handlePrReviewCommentTracked (env : Env) (prMsgKey : String)
    (prInfo : PrSlackMessage) : TrackedOutcome :=
  let r := addSlackReaction (env true COMMENTED) prInfo COMMENTED prMsgKey
  ⟨r.info, [ReactionOp.add COMMENTED], r.apiCalls.map (fun l => (COMMENTED, l)),
    r.cacheWrites, []⟩

/-- The handlePrEvent actions that operate on an existing record (the
review-requested branch, which creates records, is handled separately). -/
inductive PrAction where
  | synchronize
  | closedMerged
  | closedUnmerged
deriving DecidableEq

/-- handlePrEvent of webhookHandlers, lines 61 to 135, on a tracked record:
synchronize clears both reviewer sets, removes approved, ready-to-merge and
needs-review, and re-stores the record; closed-and-merged adds approved and
merged, removes ready-to-merge, needs-review and commented, and deletes the
record; closed-unmerged adds closed, removes approved, ready-to-merge,
needs-review and commented, and deletes the record. -/
def handlePrEventTracked (env : Env) (action : PrAction) (prMsgKey : String)
    (prInfo : PrSlackMessage) : TrackedOutcome :=
  match action with
  | .synchronize =>
    let info0 := { prInfo with approvals := ∅, changesRequested := (∅ : Finset String) }
    let st := doRemove env prMsgKey NEEDS_REVIEW
      (doRemove env prMsgKey READY_TO_MERGE
        (doRemove env prMsgKey APPROVED ⟨info0, [], [], []⟩))
    ⟨st.info, st.ops, st.apiCalls, st.cacheSets ++ [(prMsgKey, st.info)], []⟩
  | .closedMerged =>
    let st := doRemove env prMsgKey COMMENTED
      (doRemove env prMsgKey NEEDS_REVIEW
        (doRemove env prMsgKey READY_TO_MERGE
          (doAdd env prMsgKey MERGED
            (doAdd env prMsgKey APPROVED ⟨prInfo, [], [], []⟩))))
    ⟨st.info, st.ops, st.apiCalls, st.cacheSets, [prMsgKey]⟩
  | .closedUnmerged =>
    let st := doRemove env prMsgKey COMMENTED
      (doRemove env prMsgKey NEEDS_REVIEW
        (doRemove env prMsgKey READY_TO_MERGE
          (doRemove env prMsgKey APPROVED
            (doAdd env prMsgKey CLOSED ⟨prInfo, [], [], []⟩))))
    ⟨st.info, st.ops, st.apiCalls, st.cacheSets, [prMsgKey]⟩

/-- Outcome of a handler entered through the cache lookup: info? is none when
no record existed (the handler logged and returned). -/
structure HandlerOutcome where
  info? : Option PrSlackMessage
  ops : List ReactionOp
  apiCalls : List (String × SlackLoc)
  cacheSets : List (String × PrSlackMessage)
  cacheDels : List String
deriving DecidableEq

/-- Lift a tracked outcome. -/
def TrackedOutcome.toOutcome (t : TrackedOutcome) : HandlerOutcome :=
  ⟨some t.info, t.ops, t.apiCalls, t.cacheSets, t.cacheDels⟩

/-- handlePrReviewEvent including the messageCache.get guard (lines 164 to 173):
an untracked key logs a warning and returns with no effects. -/
def handlePrReviewEvent (env : Env) (strict : Finset String)
    (reviewState reviewerGithub prMsgKey : String) :
    Option PrSlackMessage → HandlerOutcome
  | none => ⟨none, [], [], [], []⟩
  | some prInfo =>
    (handlePrReviewEventTracked env strict reviewState reviewerGithub prMsgKey prInfo).toOutcome

/-- handlePrReviewComment including the messageCache.get guard. -/
def handlePrReviewComment (env : Env) (prMsgKey : String) :
    Option PrSlackMessage → HandlerOutcome
  | none => ⟨none, [], [], [], []⟩
  | some prInfo => (handlePrReviewCommentTracked env prMsgKey prInfo).toOutcome

/-- handlePrEvent including the messageCache.get guard of each branch. -/
def handlePrEvent (env : Env) (action : PrAction) (prMsgKey : String) :
    Option PrSlackMessage → HandlerOutcome
  | none => ⟨none, [], [], [], []⟩
  | some prInfo => (handlePrEventTracked env action prMsgKey prInfo).toOutcome

/-- The message cache as a key-to-record map (messageCache of src/messageCache.ts,
restricted to the get and set operations the race model needs). -/
def Cache : Type := String → Option PrSlackMessage

/-- messageCache.set. -/
def cacheSet (c : Cache) (key : String) (v : PrSlackMessage) : Cache :=
  fun k => if k = key then some v else c k

/-- The record value a whole approved-review handler run writes back at its
final messageCache.set, as a function of the record it read. -/
def approvedRunWrites (env : Env) (strict : Finset String) (reviewer key : String)
    (prInfo : PrSlackMessage) : PrSlackMessage :=
  (handlePrReviewEventTracked env strict "approved" reviewer key prInfo).info

/-- Cache contents after the interleaving get, get, set, set of two concurrent
approved-review handler runs for the same key: both runs read the same record
before either writes. This schedule is reachable in the source because
handlePrReviewEvent suspends at every awaited Slack call between its
messageCache.get and its final messageCache.set, the webhook route invokes
handlePrReviewEvent without awaiting it, and withPrLock (src/utils.ts lines 116
to 128) has no call site anywhere in the repository, so nothing serializes the
two read-modify-write sections. -/
def unlockedRaceGetGetSetSet (env : Env) (strict : Finset String)
    (r1 r2 key : String) (prInfo : PrSlackMessage) (c : Cache) : Cache :=
  cacheSet (cacheSet c key (approvedRunWrites env strict r1 key prInfo))
    key (approvedRunWrites env strict r2 key prInfo)

/-- The record produced when the two approved-review handler runs are applied
strictly one at a time, the serialization the spec requires withPrLock via
mutex.runExclusive to enforce. -/
def serializedApprovedRuns (env : Env) (strict : Finset String)
    (r1 r2 key : String) (prInfo : PrSlackMessage) : PrSlackMessage :=
  approvedRunWrites env strict r2 key (approvedRunWrites env strict r1 key prInfo)

/-! Per-reviewer view of a review-event fold, used to analyse replayed
sequences. For a fixed reviewer u, one event moves the truth value of
membership of u in a set: tTrue-events for u force it to True, tFalse-events
for u force it to False, and every other event leaves it alone. -/

/-- One step of the per-reviewer membership evolution. -/
def stepUser (tTrue tFalse : String) (e : String × String) (u : String) (p : Prop) : Prop :=
  if e.1 = tTrue then
    (if e.2 = u then True else p)
  else if e.1 = tFalse then
    (if e.2 = u then False else p)
  else
    p

/-- Folding the per-reviewer membership evolution over an event sequence. -/
def foldUser (tTrue tFalse : String) (es : List (String × String)) (u : String) (p : Prop) : Prop :=
  es.foldl (fun q e => stepUser tTrue tFalse e u q) p

/-- Folding tracked events over the approvals and changes-requested sets. -/
def applyTrackedSeq (es : List TrackedEvent) (s : Finset String × Finset String) :
    Finset String × Finset String :=
  es.foldl (fun t e => applyTrackedEvent e t) s

/-! Concrete inputs used by closed theorems below. -/

/-- An oracle under which every remote call succeeds. -/
def envOk : Env := fun _ _ _ => SlackCallResult.ok

/-- A per-location oracle under which every remote call succeeds. -/
def envOkLoc : SlackLoc → SlackCallResult := fun _ => SlackCallResult.ok

/-- A first tracked message location. -/
def locA : SlackLoc := ⟨"CA", "100.1"⟩

/-- A second tracked message location. -/
def locB : SlackLoc := ⟨"CB", "200.2"⟩

/-- An oracle that succeeds on channel CA and fails non-idempotently elsewhere. -/
def envPartial : SlackLoc → SlackCallResult :=
  fun l => if l.channel = "CA" then SlackCallResult.ok else SlackCallResult.error "rate_limited"

/-- An oracle that succeeds on channel CA and reports already_reacted elsewhere. -/
def envMixedAdd : SlackLoc → SlackCallResult :=
  fun l => if l.channel = "CA" then SlackCallResult.ok else SlackCallResult.error "already_reacted"

/-- An oracle that succeeds on channel CA and reports not_reacted elsewhere. -/
def envMixedRem : SlackLoc → SlackCallResult :=
  fun l => if l.channel = "CA" then SlackCallResult.ok else SlackCallResult.error "not_reacted"

/-- A record announced to two channels whose mirror holds the needs-review emoji. -/
def infoTwoLoc : PrSlackMessage :=
  ⟨[locA, locB], "octo/widgets", ∅, ∅, insert "warning" ∅⟩

/-- A record in a one-approval repository with an outstanding change request from bob. -/
def cexInfo : PrSlackMessage :=
  ⟨[locA], "octo/widgets", ∅, insert "bob" ∅, ∅⟩

/-- A freshly announced record with no reviews yet. -/
def raceInfo : PrSlackMessage :=
  ⟨[locA], "octo/widgets", ∅, ∅, ∅⟩

/-- The empty cache. -/
def emptyCache : Cache := fun _ => none

/-! Helper lemmas: per-reviewer analysis of review-event folds. -/

lemma mem_applyReviewSets_fst (st r : String) (s : Finset String × Finset String) (u : String) :
    (u ∈ (applyReviewSets st r s).1) = stepUser "approved" "changes_requested" (st, r) u (u ∈ s.1) := by
  unfold applyReviewSets stepUser
  by_cases h1 : st = "approved"
  · by_cases h2 : r = u
    · subst h2; simp [h1]
    · simp [h1, h2, Finset.mem_insert, Ne.symm h2]
  · by_cases h3 : st = "changes_requested"
    · by_cases h2 : r = u
      · subst h2; simp [h1, h3]
      · simp [h1, h3, h2, Finset.mem_erase, Ne.symm h2]
    · simp [h1, h3]

lemma mem_applyReviewSets_snd (st r : String) (s : Finset String × Finset String) (u : String) :
    (u ∈ (applyReviewSets st r s).2) = stepUser "changes_requested" "approved" (st, r) u (u ∈ s.2) := by
  unfold applyReviewSets stepUser
  by_cases h1 : st = "approved"
  · by_cases h2 : r = u
    · subst h2; simp [h1]
    · simp [h1, h2, Finset.mem_erase, Ne.symm h2]
  · by_cases h3 : st = "changes_requested"
    · by_cases h2 : r = u
      · subst h2; simp [h1, h3]
      · simp [h1, h3, h2, Finset.mem_insert, Ne.symm h2]
    · simp [h1, h3]

lemma mem_applySeqSets_fst (es : List (String × String)) (s : Finset String × Finset String) (u : String) :
    (u ∈ (applySeqSets es s).1) = foldUser "approved" "changes_requested" es u (u ∈ s.1) := by
  induction es generalizing s with
  | nil => rfl
  | cons e es ih =>
    show (u ∈ (applySeqSets es (applyReviewSets e.1 e.2 s)).1) =
      foldUser "approved" "changes_requested" es u (stepUser "approved" "changes_requested" e u (u ∈ s.1))
    rw [ih, mem_applyReviewSets_fst]

lemma mem_applySeqSets_snd (es : List (String × String)) (s : Finset String × Finset String) (u : String) :
    (u ∈ (applySeqSets es s).2) = foldUser "changes_requested" "approved" es u (u ∈ s.2) := by
  induction es generalizing s with
  | nil => rfl
  | cons e es ih =>
    show (u ∈ (applySeqSets es (applyReviewSets e.1 e.2 s)).2) =
      foldUser "changes_requested" "approved" es u (stepUser "changes_requested" "approved" e u (u ∈ s.2))
    rw [ih, mem_applyReviewSets_snd]

lemma foldUser_id_or_const (tTrue tFalse : String) (es : List (String × String)) (u : String) :
    (∀ p, foldUser tTrue tFalse es u p = p) ∨
    (∀ p q, foldUser tTrue tFalse es u p = foldUser tTrue tFalse es u q) := by
  induction es with
  | nil => exact Or.inl fun p => rfl
  | cons e es ih =>
    have hstep : ∀ p, foldUser tTrue tFalse (e :: es) u p =
        foldUser tTrue tFalse es u (stepUser tTrue tFalse e u p) := fun p => rfl
    rcases ih with hid | hconst
    · by_cases h1 : e.1 = tTrue
      · by_cases h2 : e.2 = u
        · refine Or.inr fun p q => ?_
          rw [hstep, hstep]
          have hv : ∀ p, stepUser tTrue tFalse e u p = True := by
            intro p; unfold stepUser; rw [if_pos h1, if_pos h2]
          rw [hv, hv]
        · refine Or.inl fun p => ?_
          rw [hstep]
          have hv : stepUser tTrue tFalse e u p = p := by
            unfold stepUser; rw [if_pos h1, if_neg h2]
          rw [hv, hid]
      · by_cases h3 : e.1 = tFalse
        · by_cases h2 : e.2 = u
          · refine Or.inr fun p q => ?_
            rw [hstep, hstep]
            have hv : ∀ p, stepUser tTrue tFalse e u p = False := by
              intro p; unfold stepUser; rw [if_neg h1, if_pos h3, if_pos h2]
            rw [hv, hv]
          · refine Or.inl fun p => ?_
            rw [hstep]
            have hv : stepUser tTrue tFalse e u p = p := by
              unfold stepUser; rw [if_neg h1, if_pos h3, if_neg h2]
            rw [hv, hid]
        · refine Or.inl fun p => ?_
          rw [hstep]
          have hv : stepUser tTrue tFalse e u p = p := by
            unfold stepUser; rw [if_neg h1, if_neg h3]
          rw [hv, hid]
    · exact Or.inr fun p q => by rw [hstep, hstep]; exact hconst _ _

lemma foldUser_idem (tTrue tFalse : String) (es : List (String × String)) (u : String) (p : Prop) :
    foldUser tTrue tFalse es u (foldUser tTrue tFalse es u p) = foldUser tTrue tFalse es u p := by
  rcases foldUser_id_or_const tTrue tFalse es u with h | h
  · exact h _
  · exact h _ _

/-! Frame lemmas: a reaction-client operation only ever touches the botReactions
mirror of the record, never the reviewer sets, the repository name or the
message locations. -/

@[simp] lemma addSlackReaction_info_approvals (env : SlackLoc → SlackCallResult)
    (i : PrSlackMessage) (e k : String) :
    (addSlackReaction env i e k).info.approvals = i.approvals := by
  unfold addSlackReaction
  split
  · rfl
  · dsimp only
    split <;> rfl

@[simp] lemma addSlackReaction_info_changesRequested (env : SlackLoc → SlackCallResult)
    (i : PrSlackMessage) (e k : String) :
    (addSlackReaction env i e k).info.changesRequested = i.changesRequested := by
  unfold addSlackReaction
  split
  · rfl
  · dsimp only
    split <;> rfl

@[simp] lemma addSlackReaction_info_repoFullName (env : SlackLoc → SlackCallResult)
    (i : PrSlackMessage) (e k : String) :
    (addSlackReaction env i e k).info.repoFullName = i.repoFullName := by
  unfold addSlackReaction
  split
  · rfl
  · dsimp only
    split <;> rfl

@[simp] lemma addSlackReaction_info_slackMessages (env : SlackLoc → SlackCallResult)
    (i : PrSlackMessage) (e k : String) :
    (addSlackReaction env i e k).info.slackMessages = i.slackMessages := by
  unfold addSlackReaction
  split
  · rfl
  · dsimp only
    split <;> rfl

@[simp] lemma removeSlackReaction_info_approvals (env : SlackLoc → SlackCallResult)
    (i : PrSlackMessage) (e k : String) :
    (removeSlackReaction env i e k).info.approvals = i.approvals := by
  unfold removeSlackReaction
  split
  · rfl
  · dsimp only
    split <;> rfl

@[simp] lemma removeSlackReaction_info_changesRequested (env : SlackLoc → SlackCallResult)
    (i : PrSlackMessage) (e k : String) :
    (removeSlackReaction env i e k).info.changesRequested = i.changesRequested := by
  unfold removeSlackReaction
  split
  · rfl
  · dsimp only
    split <;> rfl

@[simp] lemma removeSlackReaction_info_repoFullName (env : SlackLoc → SlackCallResult)
    (i : PrSlackMessage) (e k : String) :
    (removeSlackReaction env i e k).info.repoFullName = i.repoFullName := by
  unfold removeSlackReaction
  split
  · rfl
  · dsimp only
    split <;> rfl

@[simp] lemma removeSlackReaction_info_slackMessages (env : SlackLoc → SlackCallResult)
    (i : PrSlackMessage) (e k : String) :
    (removeSlackReaction env i e k).info.slackMessages = i.slackMessages := by
  unfold removeSlackReaction
  split
  · rfl
  · dsimp only
    split <;> rfl

@[simp] lemma doAdd_ops (env : Env) (key emoji : String) (st : HandlerSt) :
    (doAdd env key emoji st).ops = st.ops ++ [ReactionOp.add emoji] := rfl

@[simp] lemma doRemove_ops (env : Env) (key emoji : String) (st : HandlerSt) :
    (doRemove env key emoji st).ops = st.ops ++ [ReactionOp.remove emoji] := rfl

@[simp] lemma doAdd_info (env : Env) (key emoji : String) (st : HandlerSt) :
    (doAdd env key emoji st).info = (addSlackReaction (env true emoji) st.info emoji key).info := rfl

@[simp] lemma doRemove_info (env : Env) (key emoji : String) (st : HandlerSt) :
    (doRemove env key emoji st).info = (removeSlackReaction (env false emoji) st.info emoji key).info := rfl

/-- One tracked event preserves disjointness of the two reviewer sets. -/
lemma applyTrackedEvent_disjoint (e : TrackedEvent) (s : Finset String × Finset String)
    (h : Disjoint s.1 s.2) :
    Disjoint (applyTrackedEvent e s).1 (applyTrackedEvent e s).2 := by
  cases e with
  | synchronize => simp [applyTrackedEvent]
  | review st r =>
    simp only [applyTrackedEvent]
    unfold applyReviewSets
    by_cases h1 : st = "approved"
    · rw [if_pos h1]
      exact Finset.disjoint_insert_left.mpr
        ⟨Finset.not_mem_erase _ _, Finset.disjoint_of_subset_right (Finset.erase_subset _ _) h⟩
    · by_cases h2 : st = "changes_requested"
      · rw [if_neg h1, if_pos h2]
        exact Finset.disjoint_insert_right.mpr
          ⟨Finset.not_mem_erase _ _, Finset.disjoint_of_subset_left (Finset.erase_subset _ _) h⟩
      · rw [if_neg h1, if_neg h2]
        exact h

/-- A whole tracked-event sequence preserves disjointness of the reviewer sets. -/
lemma applyTrackedSeq_disjoint (es : List TrackedEvent) (s : Finset String × Finset String)
    (h : Disjoint s.1 s.2) :
    Disjoint (applyTrackedSeq es s).1 (applyTrackedSeq es s).2 := by
  induction es generalizing s with
  | nil => exact h
  | cons e es ih => exact ih _ (applyTrackedEvent_disjoint e s h)


/-! Claim theorems. -/

/-- Claim C1, counterexample to the claim as stated: in a one-approval
repository with an outstanding change request from bob, an approved review by
alice leaves the PR not ready to merge and leaves the approval count equal to
the required count (1), so the resulting state is not PartiallyApproved in the
sense of the claim (0 < approvals < required); the handler nevertheless adds
the partial-approval reaction. -/
theorem approved_review_partial_reaction_cex :
    isPrReadyToMerge ∅ cexInfo.repoFullName (insert "alice" cexInfo.approvals)
      (cexInfo.changesRequested.erase "alice") = false ∧
    ReactionOp.add PARTIAL_APPROVAL ∈
      (handlePrReviewEventTracked envOk ∅ "approved" "alice" "k" cexInfo).ops ∧
    ¬(0 < (insert "alice" cexInfo.approvals).card ∧
      (insert "alice" cexInfo.approvals).card <
        (if cexInfo.repoFullName ∈ (∅ : Finset String) then 2 else 1)) := by
  decide

/-- Claim C1, amended: for every approved review event on a tracked PR the
handler removes the reviewer from changes-requested and adds them to approvals,
adds the approved reaction and removes the commented and needs-review
reactions, adds the ready-to-merge reaction and removes the partial-approval
reaction exactly when the resulting state is ready to merge, and adds the
partial-approval reaction exactly when the resulting state is NOT ready to
merge (the approvals set is necessarily non-empty after the approval, so the
handler also adds it when changes-requested is non-empty). -/
theorem approved_review_transition (env : Env) (strict : Finset String)
    (reviewer key : String) (prInfo : PrSlackMessage) :
    (handlePrReviewEventTracked env strict "approved" reviewer key prInfo).info.approvals
      = insert reviewer prInfo.approvals ∧
    (handlePrReviewEventTracked env strict "approved" reviewer key prInfo).info.changesRequested
      = prInfo.changesRequested.erase reviewer ∧
    ReactionOp.add APPROVED ∈ (handlePrReviewEventTracked env strict "approved" reviewer key prInfo).ops ∧
    ReactionOp.remove COMMENTED ∈ (handlePrReviewEventTracked env strict "approved" reviewer key prInfo).ops ∧
    ReactionOp.remove NEEDS_REVIEW ∈ (handlePrReviewEventTracked env strict "approved" reviewer key prInfo).ops ∧
    ((ReactionOp.add READY_TO_MERGE ∈ (handlePrReviewEventTracked env strict "approved" reviewer key prInfo).ops)
      ↔ isPrReadyToMerge strict prInfo.repoFullName (insert reviewer prInfo.approvals)
          (prInfo.changesRequested.erase reviewer) = true) ∧
    ((ReactionOp.remove PARTIAL_APPROVAL ∈ (handlePrReviewEventTracked env strict "approved" reviewer key prInfo).ops)
      ↔ isPrReadyToMerge strict prInfo.repoFullName (insert reviewer prInfo.approvals)
          (prInfo.changesRequested.erase reviewer) = true) ∧
    ((ReactionOp.add PARTIAL_APPROVAL ∈ (handlePrReviewEventTracked env strict "approved" reviewer key prInfo).ops)
      ↔ ¬ isPrReadyToMerge strict prInfo.repoFullName (insert reviewer prInfo.approvals)
          (prInfo.changesRequested.erase reviewer) = true) := by
  have hcard : 0 < (insert reviewer prInfo.approvals).card :=
    Finset.card_pos.mpr ⟨reviewer, Finset.mem_insert_self _ _⟩
  by_cases hready : isPrReadyToMerge strict prInfo.repoFullName (insert reviewer prInfo.approvals)
      (prInfo.changesRequested.erase reviewer) = true
  · simp [handlePrReviewEventTracked, applyReviewSets, hready,
      APPROVED, COMMENTED, NEEDS_REVIEW, READY_TO_MERGE, PARTIAL_APPROVAL]
  · simp [handlePrReviewEventTracked, applyReviewSets, hready, hcard,
      APPROVED, COMMENTED, NEEDS_REVIEW, READY_TO_MERGE, PARTIAL_APPROVAL]

/-- Claim C2: starting from any record whose approvals and changes-requested
sets are disjoint, after every prefix of any sequence of handled events the two
sets are still disjoint: an approved review evicts the reviewer from
changes-requested, a changes-requested review evicts them from approvals, and a
synchronize clears both. -/
theorem review_event_sets_disjoint (es : List TrackedEvent)
    (s : Finset String × Finset String) (h : Disjoint s.1 s.2) (i : ℕ) :
    Disjoint (applyTrackedSeq (es.take i) s).1 (applyTrackedSeq (es.take i) s).2 :=
  applyTrackedSeq_disjoint (es.take i) s h

/-- Witness for the disjointness invariant: an approval by alice followed by a
change request from bob, starting from the empty record. -/
theorem review_event_sets_disjoint_witness :
    Disjoint (applyTrackedSeq ([TrackedEvent.review "approved" "alice",
        TrackedEvent.review "changes_requested" "bob"].take 2)
        ((∅ : Finset String), (∅ : Finset String))).1
      (applyTrackedSeq ([TrackedEvent.review "approved" "alice",
        TrackedEvent.review "changes_requested" "bob"].take 2)
        ((∅ : Finset String), (∅ : Finset String))).2 :=
  review_event_sets_disjoint _ _ (by simp) 2

/-- Claim C3: if at least one location fails non-idempotently, the record (in
particular the botReactions mirror) is left unchanged and no cache write
occurs; and whenever a cache write did occur, every location reported success,
counting idempotent no-ops as success. This holds for addSlackReaction and for
removeSlackReaction. -/
theorem partial_location_failure_no_mirror_update
    (envA envR : SlackLoc → SlackCallResult) (prInfo : PrSlackMessage) (emoji key : String) :
    ((∃ l ∈ prInfo.slackMessages, addLocSuccess (envA l) = false) →
      (addSlackReaction envA prInfo emoji key).info = prInfo ∧
      (addSlackReaction envA prInfo emoji key).cacheWrites = []) ∧
    ((addSlackReaction envA prInfo emoji key).cacheWrites ≠ [] →
      ∀ l ∈ prInfo.slackMessages, addLocSuccess (envA l) = true) ∧
    ((∃ l ∈ prInfo.slackMessages, removeLocSuccess (envR l) = false) →
      (removeSlackReaction envR prInfo emoji key).info = prInfo ∧
      (removeSlackReaction envR prInfo emoji key).cacheWrites = []) ∧
    ((removeSlackReaction envR prInfo emoji key).cacheWrites ≠ [] →
      ∀ l ∈ prInfo.slackMessages, removeLocSuccess (envR l) = true) := by
  refine ⟨?_, ?_, ?_, ?_⟩
  · rintro ⟨l, hl, hfail⟩
    unfold addSlackReaction
    by_cases hm : emoji ∈ prInfo.botReactions
    · simp [hm]
    · have hall : (prInfo.slackMessages.all fun l => addLocSuccess (envA l)) = false := by
        rw [List.all_eq_false]
        exact ⟨l, hl, by simp [hfail]⟩
      simp [hm, hall]
  · intro hW
    unfold addSlackReaction at hW
    by_cases hm : emoji ∈ prInfo.botReactions
    · simp [hm] at hW
    · by_cases hall : (prInfo.slackMessages.all fun l => addLocSuccess (envA l)) = true
      · exact fun l hl => List.all_eq_true.mp hall l hl
      · simp [hm, hall] at hW
  · rintro ⟨l, hl, hfail⟩
    unfold removeSlackReaction
    by_cases hm : emoji ∈ prInfo.botReactions
    · have hall : (prInfo.slackMessages.all fun l => removeLocSuccess (envR l)) = false := by
        rw [List.all_eq_false]
        exact ⟨l, hl, by simp [hfail]⟩
      simp [hm, hall]
    · simp [hm]
  · intro hW
    unfold removeSlackReaction at hW
    by_cases hm : emoji ∈ prInfo.botReactions
    · by_cases hall : (prInfo.slackMessages.all fun l => removeLocSuccess (envR l)) = true
      · exact fun l hl => List.all_eq_true.mp hall l hl
      · simp [hm, hall] at hW
    · simp [hm] at hW

/-- Witness for the partial-failure claim: the oracle succeeds on channel CA
and fails with a rate-limit error on channel CB, so the two-location record is
left unchanged and no cache write occurs, for an add and for a remove. -/
theorem partial_location_failure_no_mirror_update_witness :
    ((addSlackReaction envPartial infoTwoLoc "rocket" "k").info = infoTwoLoc ∧
      (addSlackReaction envPartial infoTwoLoc "rocket" "k").cacheWrites = []) ∧
    ((removeSlackReaction envPartial infoTwoLoc "warning" "k").info = infoTwoLoc ∧
      (removeSlackReaction envPartial infoTwoLoc "warning" "k").cacheWrites = []) :=
  ⟨(partial_location_failure_no_mirror_update envPartial envPartial infoTwoLoc "rocket" "k").1
      ⟨locB, by decide, by decide⟩,
    (partial_location_failure_no_mirror_update envPartial envPartial infoTwoLoc "warning" "k").2.2.1
      ⟨locB, by decide, by decide⟩⟩

/-- Claim C4: the already-reacted error during an add and the not-reacted error
during a remove are scored exactly like a plain success, and when every
location reports success or the respective idempotent conflict the desired end
state is recorded in the mirror. -/
theorem idempotent_conflict_counts_as_success
    (envA envR : SlackLoc → SlackCallResult) (prInfo : PrSlackMessage) (emoji key : String) :
    addLocSuccess (SlackCallResult.error "already_reacted") = addLocSuccess SlackCallResult.ok ∧
    removeLocSuccess (SlackCallResult.error "not_reacted") = removeLocSuccess SlackCallResult.ok ∧
    ((∀ l ∈ prInfo.slackMessages,
        envA l = SlackCallResult.ok ∨ envA l = SlackCallResult.error "already_reacted") →
      emoji ∈ (addSlackReaction envA prInfo emoji key).info.botReactions) ∧
    ((∀ l ∈ prInfo.slackMessages,
        envR l = SlackCallResult.ok ∨ envR l = SlackCallResult.error "not_reacted") →
      emoji ∉ (removeSlackReaction envR prInfo emoji key).info.botReactions) := by
  refine ⟨rfl, rfl, ?_, ?_⟩
  · intro h
    unfold addSlackReaction
    by_cases hm : emoji ∈ prInfo.botReactions
    · simp [hm]
    · have hall : (prInfo.slackMessages.all fun l => addLocSuccess (envA l)) = true := by
        rw [List.all_eq_true]
        intro l hl
        rcases h l hl with hok | hconf
        · simp [hok, addLocSuccess]
        · simp [hconf, addLocSuccess]
      simp [hm, hall]
  · intro h
    unfold removeSlackReaction
    by_cases hm : emoji ∈ prInfo.botReactions
    · have hall : (prInfo.slackMessages.all fun l => removeLocSuccess (envR l)) = true := by
        rw [List.all_eq_true]
        intro l hl
        rcases h l hl with hok | hconf
        · simp [hok, removeLocSuccess]
        · simp [hconf, removeLocSuccess]
      simp [hm, hall]
    · simp [hm]

/-- Witness for the idempotent-conflict claim: one location succeeds, the other
reports the idempotent conflict, and the desired end state is recorded. -/
theorem idempotent_conflict_counts_as_success_witness :
    "rocket" ∈ (addSlackReaction envMixedAdd infoTwoLoc "rocket" "k").info.botReactions ∧
    "warning" ∉ (removeSlackReaction envMixedRem infoTwoLoc "warning" "k").info.botReactions :=
  ⟨(idempotent_conflict_counts_as_success envMixedAdd envMixedRem infoTwoLoc "rocket" "k").2.2.1
      (by decide),
    (idempotent_conflict_counts_as_success envMixedAdd envMixedRem infoTwoLoc "warning" "k").2.2.2
      (by decide)⟩

/-- Claim C5: once the mirror contains the label a further addSlackReaction
call issues no remote calls at all; and when the mirror does not yet contain
the label but every location reports success or already-reacted, the mirror
converges to contain it. -/
theorem mirror_shortcircuit_and_convergence
    (env : SlackLoc → SlackCallResult) (prInfo : PrSlackMessage) (emoji key : String) :
    (emoji ∈ prInfo.botReactions → (addSlackReaction env prInfo emoji key).apiCalls = []) ∧
    (emoji ∉ prInfo.botReactions →
      (∀ l ∈ prInfo.slackMessages,
        env l = SlackCallResult.ok ∨ env l = SlackCallResult.error "already_reacted") →
      emoji ∈ (addSlackReaction env prInfo emoji key).info.botReactions) := by
  constructor
  · intro hm
    unfold addSlackReaction
    simp [hm]
  · intro hm h
    unfold addSlackReaction
    have hall : (prInfo.slackMessages.all fun l => addLocSuccess (env l)) = true := by
      rw [List.all_eq_true]
      intro l hl
      rcases h l hl with hok | hconf
      · simp [hok, addLocSuccess]
      · simp [hconf, addLocSuccess]
    simp [hm, hall]

/-- Witness for the short-circuit and convergence claim: the mirror of
infoTwoLoc already holds the warning label so adding it issues no remote calls;
the rocket label is absent, one location succeeds and the other reports
already-reacted, and the mirror converges. -/
theorem mirror_shortcircuit_and_convergence_witness :
    (addSlackReaction envOkLoc infoTwoLoc "warning" "k").apiCalls = [] ∧
    "rocket" ∈ (addSlackReaction envMixedAdd infoTwoLoc "rocket" "k").info.botReactions :=
  ⟨(mirror_shortcircuit_and_convergence envOkLoc infoTwoLoc "warning" "k").1 (by decide),
    (mirror_shortcircuit_and_convergence envMixedAdd infoTwoLoc "rocket" "k").2
      (by decide) (by decide)⟩

/-- Claim C6: a PR is ready to merge exactly when its changes-requested set is
empty and its approval count reaches the required count, which is 2 when the
repository is in the configured strict set and 1 otherwise; in particular a
non-empty changes-requested set forces the result false regardless of the
approval count. -/
theorem isPrReadyToMerge_spec (strict : Finset String) (repo : String) (ap cr : Finset String) :
    isPrReadyToMerge strict repo ap cr = true ↔
      (cr = ∅ ∧ (if repo ∈ strict then 2 else 1) ≤ ap.card) := by
  unfold isPrReadyToMerge
  by_cases h : cr.card > 0
  · have hne : cr ≠ ∅ := Finset.nonempty_iff_ne_empty.mp (Finset.card_pos.mp h)
    simp [h, hne]
  · have hcr : cr = ∅ := Finset.card_eq_zero.mp (Nat.eq_zero_of_not_pos h)
    simp [h, hcr]

/-- Claim C7: for synchronize, closed-and-merged, closed-unmerged, review and
review-comment events whose key has no tracking record, the handler returns
normally with no reaction-client operations, no remote calls, no cache writes
and no cache deletions. -/
theorem untracked_event_noop (env : Env) (strict : Finset String)
    (a : PrAction) (reviewState reviewer key : String) :
    (handlePrEvent env a key none).ops = [] ∧
    (handlePrEvent env a key none).apiCalls = [] ∧
    (handlePrEvent env a key none).cacheSets = [] ∧
    (handlePrEvent env a key none).cacheDels = [] ∧
    (handlePrReviewEvent env strict reviewState reviewer key none).ops = [] ∧
    (handlePrReviewEvent env strict reviewState reviewer key none).apiCalls = [] ∧
    (handlePrReviewEvent env strict reviewState reviewer key none).cacheSets = [] ∧
    (handlePrReviewEvent env strict reviewState reviewer key none).cacheDels = [] ∧
    (handlePrReviewComment env key none).ops = [] ∧
    (handlePrReviewComment env key none).apiCalls = [] ∧
    (handlePrReviewComment env key none).cacheSets = [] ∧
    (handlePrReviewComment env key none).cacheDels = [] :=
  ⟨rfl, rfl, rfl, rfl, rfl, rfl, rfl, rfl, rfl, rfl, rfl, rfl⟩

/-- Claim C8: replaying a whole sequence of review events a second time leaves
the final approvals and changes-requested sets identical to those after a
single playthrough. -/
theorem review_replay_idempotent (es : List (String × String)) (s : Finset String × Finset String) :
    applySeqSets (es ++ es) s = applySeqSets es s := by
  have happ : applySeqSets (es ++ es) s = applySeqSets es (applySeqSets es s) := by
    unfold applySeqSets; rw [List.foldl_append]
  rw [happ]
  have h1 : (applySeqSets es (applySeqSets es s)).1 = (applySeqSets es s).1 := by
    apply Finset.ext; intro u
    have e1 := mem_applySeqSets_fst es (applySeqSets es s) u
    have e2 := mem_applySeqSets_fst es s u
    rw [e2] at e1
    rw [foldUser_idem] at e1
    rw [← e2] at e1
    exact Eq.to_iff e1
  have h2 : (applySeqSets es (applySeqSets es s)).2 = (applySeqSets es s).2 := by
    apply Finset.ext; intro u
    have e1 := mem_applySeqSets_snd es (applySeqSets es s) u
    have e2 := mem_applySeqSets_snd es s u
    rw [e2] at e1
    rw [foldUser_idem] at e1
    rw [← e2] at e1
    exact Eq.to_iff e1
  exact Prod.ext h1 h2

/-- Claim C9: because no handler acquires withPrLock, the get-get-set-set
interleaving of two concurrent approved-review handler runs for the same key is
reachable, and it loses the first update: starting from a record with no
reviews, concurrent approvals by alice and bob leave only bob in the final
approvals set, whereas the serialized execution that withPrLock would enforce
leaves both. -/
theorem unlocked_concurrent_approvals_lose_update :
    (unlockedRaceGetGetSetSet envOk ∅ "alice" "bob" "k" raceInfo emptyCache "k").map
        (fun i => i.approvals) = some (insert "bob" ∅) ∧
    (serializedApprovedRuns envOk ∅ "alice" "bob" "k" raceInfo).approvals
        = insert "bob" (insert "alice" ∅) := by
  decide

/-- Claim C10: a pull-request-review event whose review state is commented, on
a tracked PR, leaves the record (approvals, changes-requested and botReactions)
unchanged, invokes no reaction-client operation and issues no remote call; its
only effect is one cache write re-storing the unchanged record. By contrast,
the inline review-comment handler does invoke the add of the commented
reaction. -/
theorem commented_review_frame (env : Env) (strict : Finset String)
    (reviewer key : String) (prInfo : PrSlackMessage) :
    (handlePrReviewEventTracked env strict "commented" reviewer key prInfo).info = prInfo ∧
    (handlePrReviewEventTracked env strict "commented" reviewer key prInfo).ops = [] ∧
    (handlePrReviewEventTracked env strict "commented" reviewer key prInfo).apiCalls = [] ∧
    (handlePrReviewEventTracked env strict "commented" reviewer key prInfo).cacheSets = [(key, prInfo)] ∧
    (handlePrReviewEventTracked env strict "commented" reviewer key prInfo).cacheDels = [] ∧
    (handlePrReviewCommentTracked env key prInfo).ops = [ReactionOp.add COMMENTED] :=
  ⟨rfl, rfl, rfl, rfl, rfl, rfl⟩

end PrBot
